import Mathlib

/-!
Shallow embedding of the moonboysui/bb2 buy-alert bot (src/bot.py, src/sui_api.py,
src/database.py) in Lean 4, with theorems settling the frozen claims about it.

Modelling conventions:
* Python `Decimal` values are modelled as exact rationals `ℚ` (the source never
  exercises the 28-significant-digit rounding of the default Decimal context on
  the paths embedded here, so exact arithmetic is faithful on those paths).
* `datetime` instants are seconds since an arbitrary epoch, as `ℕ`;
  `timedelta(hours=h)` is `h * 3600` seconds, `timedelta(minutes=5)` is `300`.
* Network calls are parameterised by their observable outcome: an HTTP response
  is `Option α` — `some` for a 200 response whose body parsed, `none` for a
  non-200 status or a raised exception.
* Python exceptions are modelled with `Except PyError`; a `try/except` block
  that returns a fallback becomes a `match` on the `Except` value.
-/

/-- Exceptions that the embedded code paths can raise. -/
inductive PyError where
  /-- `BuyBotException` raised by `format_buy_alert` (bot.py 202) after catching
  the `Decimal` division-by-zero error. -/
  | buyBotException
  /-- Python `AttributeError`: attribute access on an object without that
  attribute (e.g. a plain `dict`). -/
  | attributeError
  deriving Repr, DecidableEq

/-- sui_api.py: the SUI asset tag compared against `token_in` (line 129). -/
def SUI_ASSET : String := "0x2::sui::SUI"

/-- bot.py line 53: `MIN_TRENDING_BUY = 200`. -/
def MIN_TRENDING_BUY : ℚ := 200

/-- bot.py line 57: `MAX_EMOJIS = 50`. -/
def MAX_EMOJIS : ℤ := 50

/-- sui_api.py `TokenData` dataclass (lines 26-41). -/
structure TokenData where
  address : String
  name : String
  symbol : String
  decimals : ℕ
  total_supply : ℚ
  price : ℚ
  mcap : ℚ
  liquidity : ℚ
  volume_30m : ℚ
  price_change_30m : ℚ
  telegram_link : Option String := none
  website_link : Option String := none
  twitter_link : Option String := none
  is_boosted : Bool := false
  deriving Repr, DecidableEq

/-- sui_api.py `BuyData` dataclass (lines 43-59). -/
structure BuyData where
  token_address : String
  buyer_address : String
  amount_sui : ℚ
  amount_usd : ℚ
  token_amount : ℚ
  price : ℚ
  mcap : ℚ
  liquidity : ℚ
  sui_price : ℚ
  timestamp : ℕ
  tx_hash : String
  buyer_url : String
  tx_url : String
  chart_url : String
  buy_url : String
  deriving Repr, DecidableEq

/-- database.py `GroupConfig` model (lines 54-77): per-group token tracking
configuration. `group_id` stands for the delivery target chat. -/
structure GroupConfig where
  group_id : ℤ
  token_address : String
  symbol : String
  emoji : String := "🌙"
  min_buy : ℚ := 1
  buy_step : ℚ := 5
  telegram_link : Option String := none
  website_link : Option String := none
  twitter_link : Option String := none
  is_active : Bool := true
  deriving Repr, DecidableEq

/-- database.py `Boost` model (lines 103-125). `is_active` has server default
`true` (line 113-114); `start_time` is in epoch seconds. -/
structure Boost where
  token_address : String
  user_id : ℤ
  duration_hours : ℕ
  paid_amount : ℚ
  start_time : ℕ
  is_active : Bool := true
  deriving Repr, DecidableEq

/-- One field of a raw swap event (sui_api.py lines 125-126, 139, 141): the
asset tag and the raw amount. The amount is `some q` when `Decimal(raw)`
succeeds with value `q` and `none` when it raises (unparseable field). -/
structure SwapAmount where
  token : String
  amount : Option ℚ
  deriving Repr, DecidableEq

/-- A raw swap event as consumed by `_process_swap_event` (sui_api.py 120-163):
the fields the function reads from `event_data`. -/
structure SwapEvent where
  amount_in : SwapAmount
  amount_out : SwapAmount
  sender : String
  tx_digest : String
  deriving Repr, DecidableEq

/-- Python `int()` applied to an exact quotient: truncation toward zero.
Used for `int(Decimal(...) / Decimal(...))` in bot.py line 145. -/
def truncRat (q : ℚ) : ℤ :=
  if 0 ≤ q then ⌊q⌋ else ⌈q⌉

/-- Python `(s) * n` string repetition. -/
def repeatStr (s : String) : ℕ → String
  | 0 => ""
  | n + 1 => s ++ repeatStr s n

/-- The information content of the message built by `format_buy_alert`
(bot.py 144-198) on its success path: the emoji line computed from
`buy_step`, plus the buy and destination configuration that the remaining
interpolated lines are rendered from. The textual `f`-string rendering of the
numeric fields is not re-modelled; every claim concerns the emoji computation
and the delivery decision, both captured here exactly. -/
structure Alert where
  symbol : String
  emoji_count : ℤ
  emojis : String
  buy : BuyData
  config : GroupConfig
  deriving Repr, DecidableEq

/-- The success payload of `format_buy_alert` (bot.py 144-148):
`emoji_count = min(int(Decimal(amount_usd) / Decimal(buy_step)), MAX_EMOJIS)`,
`emojis = (emoji + " ") * emoji_count if emoji_count > 0 else ""`. -/
def mkAlert (buy : BuyData) (cfg : GroupConfig) : Alert :=
  let emoji_count : ℤ := min (truncRat (buy.amount_usd / cfg.buy_step)) MAX_EMOJIS
  { symbol := cfg.symbol
    emoji_count := emoji_count
    emojis := if 0 < emoji_count then repeatStr (cfg.emoji ++ " ") emoji_count.toNat else ""
    buy := buy
    config := cfg }

/-- bot.py `format_buy_alert` (lines 136-202). When `buy_step = 0` the
`Decimal` division at line 145 raises, the handler at line 200 catches it and
raises `BuyBotException`; otherwise the formatted alert is returned. -/
def format_buy_alert (buy : BuyData) (cfg : GroupConfig) : Except PyError Alert :=
  if cfg.buy_step = 0 then .error .buyBotException
  else .ok (mkAlert buy cfg)

/-- A message actually sent by `process_buy_event`: either a per-group alert
(bot.py 404-408, tagged with the `GroupConfig` row it was produced for) or the
trending-channel alert (bot.py 423-427). -/
inductive Delivery where
  | group (cfg : GroupConfig) (alert : Alert)
  | trending (alert : Alert)
  deriving Repr, DecidableEq

/-- The per-group loop of `process_buy_event` (bot.py 399-410): each config
whose `min_buy` threshold is met gets a formatted alert. A formatting failure
propagates (only `TelegramAPIError` from the send is caught at 409-410), so the
loop stops there: the first component is the list of deliveries performed
before any exception, the second is the exception if one was raised. -/
def dispatch_groups (buy : BuyData) : List GroupConfig → List Delivery × Option PyError
  | [] => ([], none)
  | cfg :: rest =>
    if cfg.min_buy ≤ buy.amount_usd then
      match format_buy_alert buy cfg with
      | .error e => ([], some e)
      | .ok alert =>
        let r := dispatch_groups buy rest
        (.group cfg alert :: r.1, r.2)
    else dispatch_groups buy rest

/-- bot.py `process_buy_event` (lines 383-430), given the `GroupConfig` rows
returned by the query at 388-393 and the boost flag computed at 396. Returns
the deliveries performed. The outer `try/except` (429-430) swallows any
exception, so an exception leaves the deliveries made so far in place and
skips the rest: a formatting failure in the group loop also skips the trending
branch, and in the trending branch an empty `configs` list makes `configs[0]`
(line 419) raise `IndexError` before anything is sent to the channel. -/
def process_buy_event (configs : List GroupConfig) (is_boosted : Bool)
    (buy : BuyData) : List Delivery :=
  let r := dispatch_groups buy configs
  match r.2 with
  | some _ => r.1
  | none =>
    if MIN_TRENDING_BUY ≤ buy.amount_usd ∨ is_boosted = true then
      match configs with
      | [] => r.1
      | cfg0 :: _ =>
        match format_buy_alert buy cfg0 with
        | .error _ => r.1
        | .ok alert => r.1 ++ [.trending alert]
    else r.1

/-- The `GroupConfig` query inside `process_buy_event` (bot.py 388-393):
`select(GroupConfig).where(GroupConfig.token_address == buy_data.token_address)`
— note it filters on the token address only, not on `is_active`. -/
def buy_event_configs (db : List GroupConfig) (token_address : String) :
    List GroupConfig :=
  db.filter fun c => c.token_address == token_address

/-- database.py `get_group_configs` (lines 205-216): filters on the token
address and `is_active == True`. `process_buy_event` does not call it. -/
def get_group_configs (db : List GroupConfig) (token_address : String) :
    List GroupConfig :=
  db.filter fun c => c.token_address == token_address && c.is_active

/-- bot.py `check_token_boost` (lines 470-481): true iff some `Boost` row for
the token satisfies `start_time + timedelta(hours=duration_hours) > utcnow()`. -/
def check_token_boost (boosts : List Boost) (token_address : String) (now : ℕ) :
    Bool :=
  boosts.any fun b =>
    b.token_address == token_address &&
      decide (now < b.start_time + b.duration_hours * 3600)

/-- The boost-activation step of `monitor_boost_payment` on payment
confirmation (bot.py 329-338): a new `Boost` row is inserted
(`start_time = utcnow()`, `is_active` takes its server default `true`);
no existing row is updated. -/
def activate_boost (db : List Boost) (token_address : String)
    (duration_hours : ℕ) (paid_amount : ℚ) (user_id : ℤ) (now : ℕ) :
    List Boost :=
  db ++ [{ token_address := token_address
           user_id := user_id
           duration_hours := duration_hours
           paid_amount := paid_amount
           start_time := now
           is_active := true }]

/-- The Boost rows for `token` that are active at instant `at_`, under the
activity notion the code itself queries with (`check_token_boost`):
`start_time + duration_hours hours > at_`. -/
def active_boosts_for (db : List Boost) (token_address : String) (at_ : ℕ) :
    List Boost :=
  db.filter fun b =>
    b.token_address == token_address &&
      decide (at_ < b.start_time + b.duration_hours * 3600)

/-- sui_api.py `get_sui_price` (lines 266-282): `response` is `some p` for a
200 response whose body parsed to price `p`; a non-200 status falls through to
`return Decimal("0")` and an exception is caught and also returns 0. -/
def get_sui_price (response : Option ℚ) : ℚ :=
  match response with
  | some price => price
  | none => 0

/-- sui_api.py `_process_swap_event` (lines 120-163). Parameters:
`token_data` is the result of the `get_token_data` call at line 133 and
`sui_price` the result of `get_sui_price` (called at lines 140 and 152; both
calls are taken to observe the same price). The body is wrapped in
`try/except` returning `None`, so a missing/unparseable amount field (a raised
`KeyError`/`InvalidOperation`, modelled by `amount = none`) yields `none`. -/
def process_swap_event (ev : SwapEvent) (token_data : Option TokenData)
    (sui_price : ℚ) (now : ℕ) : Option BuyData :=
  if ev.amount_in.token ≠ SUI_ASSET then none
  else
    match token_data with
    | none => none
    | some td =>
      match ev.amount_in.amount, ev.amount_out.amount with
      | some ain, some aout =>
        let amount_sui : ℚ := ain / 10 ^ 9
        let amount_usd : ℚ := amount_sui * sui_price
        let token_amount : ℚ := aout / 10 ^ td.decimals
        some { token_address := ev.amount_out.token
               buyer_address := ev.sender
               amount_sui := amount_sui
               amount_usd := amount_usd
               token_amount := token_amount
               price := td.price
               mcap := td.mcap
               liquidity := td.liquidity
               sui_price := sui_price
               timestamp := now
               tx_hash := ev.tx_digest
               buyer_url := "https://suivision.xyz/account/" ++ ev.sender
               tx_url := "https://suivision.xyz/txblock/" ++ ev.tx_digest
               chart_url := "https://dexscreener.com/sui/" ++ ev.amount_out.token
               buy_url := "https://app.cetus.zone/swap?from=sui&to=" ++ ev.amount_out.token }
      | _, _ => none

/-- One iteration of the receive loop in `start_buy_monitoring`
(sui_api.py 99-114) followed by the `process_buy_event` callback
(bot.py 383-430): normalize the raw event and, if a `BuyData` results,
dispatch it against the configs for its token and its boost status.
No transaction-hash state is consulted or recorded anywhere on this path. -/
def handle_event (cfg_db : List GroupConfig) (boosts : List Boost)
    (token_data : Option TokenData) (sui_price : ℚ) (now : ℕ)
    (ev : SwapEvent) : List Delivery :=
  match process_swap_event ev token_data sui_price now with
  | some buy =>
    process_buy_event (buy_event_configs cfg_db buy.token_address)
      (check_token_boost boosts buy.token_address now) buy
  | none => []

/-- The receive loop over a finite trace of raw events: each event is handled
independently (the loop keeps no per-event state between iterations). -/
def handle_events (cfg_db : List GroupConfig) (boosts : List Boost)
    (token_data : Option TokenData) (sui_price : ℚ) (now : ℕ) :
    List SwapEvent → List Delivery
  | [] => []
  | ev :: rest =>
    handle_event cfg_db boosts token_data sui_price now ev ++
      handle_events cfg_db boosts token_data sui_price now rest

/-- The value stored into `_token_cache` by `get_token_data`
(sui_api.py 196-200): a plain `dict` with keys `"data"` and `"timestamp"`. -/
structure CacheEntry where
  data : TokenData
  timestamp : ℕ
  deriving Repr, DecidableEq

/-- The `_token_cache` class attribute (sui_api.py line 63), as an association
list keyed by token address. -/
abbrev TokenCache : Type := List (String × CacheEntry)

/-- Lookup `address in cls._token_cache` / `cls._token_cache[address]`
(sui_api.py 170-171). -/
def cacheLookup (cache : TokenCache) (address : String) : Option CacheEntry :=
  (List.find? (fun p => p.1 == address) cache).map fun p => p.2

/-- Assignment `cls._token_cache[address] = entry` (sui_api.py 197-200):
Python dict assignment replaces an existing key or appends a new one. -/
def cacheStore (cache : TokenCache) (address : String) (entry : CacheEntry) :
    TokenCache :=
  if cache.any (fun p => p.1 == address) then
    cache.map fun p => if p.1 == address then (address, entry) else p
  else cache ++ [(address, entry)]

/-- The attribute access `cached.timestamp` at sui_api.py line 172, where
`cached` is the plain dict stored at lines 197-200: a Python dict exposes its
entries by subscript (`cached["timestamp"]`), not as attributes, so this
access raises `AttributeError` unconditionally. -/
def dictAttrTimestamp (_cached : CacheEntry) : Except PyError ℕ :=
  .error .attributeError

/-- The attribute access `cached.data` at sui_api.py line 173, same situation
as `dictAttrTimestamp`: raises `AttributeError`. -/
def dictAttrData (_cached : CacheEntry) : Except PyError TokenData :=
  .error .attributeError

/-- The fetch-and-cache tail of `get_token_data` (sui_api.py 175-204):
`fetched` is `some td` when the HTTP call returned 200 and every field parsed
(the `TokenData` built at 183-194), `none` when the status was not 200 (falls
through to `return None`). On success the result is stored into the cache
keyed by the address, timestamped now. -/
def fetch_token_data (cache : TokenCache) (address : String)
    (fetched : Option TokenData) (now : ℕ) : Option TokenData × TokenCache :=
  match fetched with
  | some td => (some td, cacheStore cache address ⟨td, now⟩)
  | none => (none, cache)

/-- The body of the `try` block of `get_token_data` (sui_api.py 168-204).
On a cache hit the code reads `cached.timestamp` (line 172) — which raises
`AttributeError` because the stored value is a dict — before it could compare
against the 5-minute TTL (`timedelta(minutes=5)` = 300 s) or return
`cached.data`; on a miss, or when the hit is stale, it falls through to the
fetch path. -/
def get_token_data_body (cache : TokenCache) (address : String)
    (fetched : Option TokenData) (now : ℕ) :
    Except PyError (Option TokenData × TokenCache) := do
  match cacheLookup cache address with
  | some cached =>
    let ts ← dictAttrTimestamp cached
    if now - ts < 300 then
      let d ← dictAttrData cached
      return (some d, cache)
    else
      return fetch_token_data cache address fetched now
  | none => return fetch_token_data cache address fetched now

/-- sui_api.py `get_token_data` (lines 165-207): the `try` body with the
`except Exception` handler at 205-207, which logs and returns `None` leaving
the cache as it was. Returns the value produced and the cache afterwards. -/
def get_token_data (cache : TokenCache) (address : String)
    (fetched : Option TokenData) (now : ℕ) : Option TokenData × TokenCache :=
  match get_token_data_body cache address fetched now with
  | .ok r => r
  | .error _ => (none, cache)

/-- One transaction as read by `verify_payment` (sui_api.py 253-258): the
`kind` and `status` fields and the raw integer `amount`. -/
structure PayTx where
  kind : String
  status : String
  amount : ℤ
  deriving Repr, DecidableEq

/-- sui_api.py `verify_payment` (lines 240-264). `response` is `some txs` for
a 200 response parsed to the transaction list, `none` for a non-200 status
(falls through to `return False`) or a raised exception (handler returns
`False`). Returns `True` on the first transaction with `kind == "Pay"`,
`status == "success"` and `Decimal(amount) / Decimal(10**9) == amount`
(exact `Decimal` equality), else `False`. -/
def verify_payment (response : Option (List PayTx)) (amount : ℚ) : Bool :=
  match response with
  | some txs =>
    txs.any fun tx =>
      tx.kind == "Pay" && tx.status == "success" &&
        decide ((tx.amount : ℚ) / 10 ^ 9 = amount)
  | none => false

/-! Concrete inputs used by the counterexamples and witnesses below. -/

/-- A token record for the token at address `0xT` (9 decimals). -/
def tdT : TokenData :=
  { address := "0xT", name := "TokenT", symbol := "TKT", decimals := 9
    total_supply := 1000000, price := 2, mcap := 50000, liquidity := 10000
    volume_30m := 0, price_change_30m := 0 }

/-- A raw SUI → `0xT` swap: 10 SUI in (raw `10^10`), 500 tokens out. -/
def evT : SwapEvent :=
  { amount_in := { token := "0x2::sui::SUI", amount := some 10000000000 }
    amount_out := { token := "0xT", amount := some 500000000000 }
    sender := "0xBUYER", tx_digest := "0xHASH" }

/-- The `BuyData` that `process_swap_event` produces from `evT` with token
data `tdT` and SUI price 1. -/
def buyT : BuyData :=
  { token_address := "0xT", buyer_address := "0xBUYER"
    amount_sui := 10, amount_usd := 10, token_amount := 500
    price := 2, mcap := 50000, liquidity := 10000, sui_price := 1
    timestamp := 0, tx_hash := "0xHASH"
    buyer_url := "https://suivision.xyz/account/0xBUYER"
    tx_url := "https://suivision.xyz/txblock/0xHASH"
    chart_url := "https://dexscreener.com/sui/0xT"
    buy_url := "https://app.cetus.zone/swap?from=sui&to=0xT" }

/-- The `BuyData` produced from `evT` during a SUI-price outage
(`get_sui_price` observing `none`): the USD fields degrade to 0. -/
def buyT0 : BuyData := { buyT with amount_usd := 0, sui_price := 0 }

/-- A `BuyData` for token `0xT` with `amount_usd = 1`. -/
def buy1 : BuyData := { buyT with amount_sui := 1, amount_usd := 1 }

/-- A `BuyData` for token `0xT` with `amount_usd = 10`. -/
def buy10 : BuyData := buyT

/-- A `BuyData` for token `0xT` with `amount_usd = 23`. -/
def buy23 : BuyData := { buyT with amount_sui := 23, amount_usd := 23 }

/-- An active group configuration tracking `0xT` with `min_buy = 1`,
`buy_step = 5`. -/
def cfgT : GroupConfig :=
  { group_id := 42, token_address := "0xT", symbol := "TKT" }

/-- The same configuration with `is_active = false`. -/
def cfgInactive : GroupConfig := { cfgT with is_active := false }

/-- The same configuration with `buy_step = 0`. -/
def cfgStep0 : GroupConfig := { cfgT with buy_step := 0 }

/-- The same configuration with `buy_step = -5`. -/
def cfgStepNeg : GroupConfig := { cfgT with buy_step := -5 }

/-- A `Boost` for `0xT` bought at time 0 for 4 hours: active until 14400. -/
def boostB1 : Boost :=
  { token_address := "0xT", user_id := 1, duration_hours := 4
    paid_amount := 15, start_time := 0 }

/-- The `Boost` row that `activate_boost` inserts at time 1000 for `0xT`
(4 hours, 15 SUI, user 2). -/
def boostB2 : Boost :=
  { token_address := "0xT", user_id := 2, duration_hours := 4
    paid_amount := 15, start_time := 1000 }

/-- A wrong-direction swap: the input asset is `0xT`, not SUI. -/
def evWrongDir : SwapEvent :=
  { amount_in := { token := "0xT", amount := some 1000000000 }
    amount_out := { token := "0x2::sui::SUI", amount := some 1000000000 }
    sender := "0xBUYER", tx_digest := "0xHASH2" }

/-- A buy-like swap whose input amount field does not parse
(`Decimal(...)` raises). -/
def evBadIn : SwapEvent :=
  { amount_in := { token := "0x2::sui::SUI", amount := none }
    amount_out := { token := "0xT", amount := some 1000000000 }
    sender := "0xBUYER", tx_digest := "0xHASH3" }

/-- A buy-like swap whose output amount field does not parse. -/
def evBadOut : SwapEvent :=
  { amount_in := { token := "0x2::sui::SUI", amount := some 1000000000 }
    amount_out := { token := "0xT", amount := none }
    sender := "0xBUYER", tx_digest := "0xHASH4" }

/-! General lemmas about the dispatcher. -/

/-- When `buy_step ≠ 0`, formatting succeeds with the alert `mkAlert`. -/
theorem format_buy_alert_ok (buy : BuyData) (cfg : GroupConfig)
    (h : cfg.buy_step ≠ 0) :
    format_buy_alert buy cfg = .ok (mkAlert buy cfg) := by
  simp [format_buy_alert, h]

/-- When every configuration has `buy_step ≠ 0`, the group loop raises nothing
and delivers exactly to the configurations whose threshold is met. -/
theorem dispatch_groups_eq (buy : BuyData) :
    ∀ cfgs : List GroupConfig, (∀ c ∈ cfgs, c.buy_step ≠ 0) →
      dispatch_groups buy cfgs =
        ((cfgs.filter fun c => decide (c.min_buy ≤ buy.amount_usd)).map
          fun c => Delivery.group c (mkAlert buy c), none)
  | [], _ => rfl
  | cfg :: rest, h => by
    have hstep : cfg.buy_step ≠ 0 := h cfg (List.mem_cons_self _ _)
    have ih := dispatch_groups_eq buy rest fun c hc => h c (List.mem_cons_of_mem _ hc)
    by_cases hm : cfg.min_buy ≤ buy.amount_usd
    · simp [dispatch_groups, hm, format_buy_alert_ok buy cfg hstep, ih,
        List.filter_cons]
    · simp [dispatch_groups, hm, ih, List.filter_cons]

/-- Every delivery made by the group loop is a group delivery to a member
configuration whose threshold was met and whose formatting succeeded. -/
theorem dispatch_groups_mem (buy : BuyData) :
    ∀ (cfgs : List GroupConfig) (d : Delivery),
      d ∈ (dispatch_groups buy cfgs).1 →
      ∃ c a, d = Delivery.group c a ∧ c ∈ cfgs ∧
        c.min_buy ≤ buy.amount_usd ∧ format_buy_alert buy c = .ok a
  | [], d => by simp [dispatch_groups]
  | cfg :: rest, d => by
    by_cases hm : cfg.min_buy ≤ buy.amount_usd
    · cases hfmt : format_buy_alert buy cfg with
      | error e => simp [dispatch_groups, hm, hfmt]
      | ok alert =>
        intro hd
        simp only [dispatch_groups, if_pos hm, hfmt, List.mem_cons] at hd
        rcases hd with rfl | hd
        · exact ⟨cfg, alert, rfl, List.mem_cons_self _ _, hm, hfmt⟩
        · obtain ⟨c, a, rfl, hc, hmb, hfa⟩ := dispatch_groups_mem buy rest _ hd
          exact ⟨c, a, rfl, List.mem_cons_of_mem _ hc, hmb, hfa⟩
    · intro hd
      simp only [dispatch_groups, if_neg hm] at hd
      obtain ⟨c, a, rfl, hc, hmb, hfa⟩ := dispatch_groups_mem buy rest _ hd
      exact ⟨c, a, rfl, List.mem_cons_of_mem _ hc, hmb, hfa⟩

/-- `process_buy_event` returns the group-loop deliveries, possibly followed
by one trending-channel message. -/
theorem process_buy_event_cases (cfgs : List GroupConfig) (is_boosted : Bool)
    (buy : BuyData) :
    process_buy_event cfgs is_boosted buy = (dispatch_groups buy cfgs).1 ∨
    ∃ a, process_buy_event cfgs is_boosted buy
      = (dispatch_groups buy cfgs).1 ++ [Delivery.trending a] := by
  simp only [process_buy_event]
  split
  · exact Or.inl rfl
  · split
    · split
      · exact Or.inl rfl
      · split
        · exact Or.inl rfl
        · exact Or.inr ⟨_, rfl⟩
    · exact Or.inl rfl

/-- Every delivery of `process_buy_event` is either a delivery of the group
loop or the trending-channel message. -/
theorem mem_process_buy_event (cfgs : List GroupConfig) (is_boosted : Bool)
    (buy : BuyData) (d : Delivery)
    (hd : d ∈ process_buy_event cfgs is_boosted buy) :
    d ∈ (dispatch_groups buy cfgs).1 ∨ ∃ a, d = Delivery.trending a := by
  rcases process_buy_event_cases cfgs is_boosted buy with h | ⟨a, h⟩
  · rw [h] at hd
    exact Or.inl hd
  · rw [h] at hd
    rcases List.mem_append.mp hd with h1 | h1
    · exact Or.inl h1
    · simp only [List.mem_singleton] at h1
      exact Or.inr ⟨a, h1⟩

/-- A group delivery of `process_buy_event` goes to a member configuration
whose `min_buy` threshold is met (no hypothesis on `buy_step` needed). -/
theorem process_buy_event_group_mem (cfgs : List GroupConfig)
    (is_boosted : Bool) (buy : BuyData) (c : GroupConfig) (a : Alert)
    (hd : Delivery.group c a ∈ process_buy_event cfgs is_boosted buy) :
    c ∈ cfgs ∧ c.min_buy ≤ buy.amount_usd ∧ format_buy_alert buy c = .ok a := by
  rcases mem_process_buy_event cfgs is_boosted buy _ hd with h | ⟨a', ha'⟩
  · obtain ⟨c', a', heq, hc, hmb, hfa⟩ := dispatch_groups_mem buy cfgs _ h
    cases heq
    exact ⟨hc, hmb, hfa⟩
  · cases ha'

/-- When every configuration has `buy_step ≠ 0`, `process_buy_event` delivers
exactly to the threshold-qualifying groups, plus one trending message when the
trending condition holds and `configs` is non-empty. -/
theorem process_buy_event_eq_of_steps (cfgs : List GroupConfig) (isb : Bool)
    (buy : BuyData) (h : ∀ c ∈ cfgs, c.buy_step ≠ 0) :
    process_buy_event cfgs isb buy =
      ((cfgs.filter fun c => decide (c.min_buy ≤ buy.amount_usd)).map
        fun c => Delivery.group c (mkAlert buy c)) ++
      if MIN_TRENDING_BUY ≤ buy.amount_usd ∨ isb = true then
        (match cfgs with
         | [] => []
         | cfg0 :: _ => [Delivery.trending (mkAlert buy cfg0)])
      else [] := by
  by_cases hc : MIN_TRENDING_BUY ≤ buy.amount_usd ∨ isb = true
  · cases cfgs with
    | nil =>
      simp only [process_buy_event, dispatch_groups_eq buy [] (by simp), if_pos hc]
      simp
    | cons cfg0 rest =>
      simp only [process_buy_event, dispatch_groups_eq buy (cfg0 :: rest) h, if_pos hc,
        format_buy_alert_ok buy cfg0 (h cfg0 (List.mem_cons_self _ _))]
  · simp only [process_buy_event, dispatch_groups_eq buy cfgs h, if_neg hc]
    simp

/-- When every configuration has `buy_step ≠ 0`, a trending-channel message is
sent iff the trending condition holds and there is at least one configuration
(the `configs[0]` read needs one). -/
theorem trending_mem_iff (cfgs : List GroupConfig) (isb : Bool) (buy : BuyData)
    (h : ∀ c ∈ cfgs, c.buy_step ≠ 0) :
    (∃ a, Delivery.trending a ∈ process_buy_event cfgs isb buy) ↔
      ((MIN_TRENDING_BUY ≤ buy.amount_usd ∨ isb = true) ∧ cfgs ≠ []) := by
  rw [process_buy_event_eq_of_steps cfgs isb buy h]
  by_cases hc : MIN_TRENDING_BUY ≤ buy.amount_usd ∨ isb = true
  · rw [if_pos hc]
    cases cfgs with
    | nil => simp
    | cons cfg0 rest =>
      constructor
      · intro _
        exact ⟨hc, List.cons_ne_nil _ _⟩
      · intro _
        exact ⟨mkAlert buy cfg0,
          List.mem_append_right _ (List.mem_singleton_self _)⟩
  · rw [if_neg hc]
    constructor
    · rintro ⟨a, ha⟩
      rw [List.append_nil] at ha
      obtain ⟨c, -, hce⟩ := List.mem_map.mp ha
      exact absurd hce (by simp)
    · rintro ⟨hcond, -⟩
      exact absurd hcond hc

/-- When every configuration has `buy_step ≠ 0`, each member configuration
meeting its threshold receives its delivery. -/
theorem process_buy_event_group_mem_intro (cfgs : List GroupConfig)
    (isb : Bool) (buy : BuyData) (c : GroupConfig)
    (h : ∀ c' ∈ cfgs, c'.buy_step ≠ 0) (hc : c ∈ cfgs)
    (hm : c.min_buy ≤ buy.amount_usd) :
    Delivery.group c (mkAlert buy c) ∈ process_buy_event cfgs isb buy := by
  rw [process_buy_event_eq_of_steps cfgs isb buy h]
  refine List.mem_append_left _ ?_
  exact List.mem_map.mpr ⟨c, List.mem_filter.mpr ⟨hc, by simp [hm]⟩, rfl⟩

/-- The event loop treats each raw event independently: handling a
concatenation of traces concatenates the deliveries (there is no cross-event
state such as a seen-hash set). -/
theorem handle_events_append (cfg_db : List GroupConfig) (boosts : List Boost)
    (token_data : Option TokenData) (sui_price : ℚ) (now : ℕ) :
    ∀ evs1 evs2 : List SwapEvent,
      handle_events cfg_db boosts token_data sui_price now (evs1 ++ evs2) =
        handle_events cfg_db boosts token_data sui_price now evs1 ++
          handle_events cfg_db boosts token_data sui_price now evs2
  | [], evs2 => by simp [handle_events]
  | ev :: rest, evs2 => by
    simp [handle_events, handle_events_append cfg_db boosts token_data sui_price now rest evs2]

/-- Evaluation: normalizing the concrete raw event `evT` (SUI input asset)
with token data `tdT` and SUI price 1 yields the buy record `buyT`. -/
theorem process_swap_event_evT :
    process_swap_event evT (some tdT) 1 0 = some buyT := by
  norm_num [process_swap_event, evT, tdT, buyT, SUI_ASSET]
  decide

/-! Claim C1: Boost exclusivity. -/

/-- C1 counterexample: with Boost `boostB1` for token `0xT` still active at
time 1000 (it runs to 14400), activating a new 4-hour Boost for `0xT` leaves
TWO active Boosts for the token, and the prior Boost keeps `is_active = true`;
the claimed deactivation of the prior Boost does not happen, and "at most one
Boost active per token" is violated. -/
theorem c1_counterexample :
    (active_boosts_for (activate_boost [boostB1] "0xT" 4 15 2 1000) "0xT" 1000).length = 2 ∧
    boostB1 ∈ active_boosts_for (activate_boost [boostB1] "0xT" 4 15 2 1000) "0xT" 1000 ∧
    boostB1.is_active = true := by
  have h : active_boosts_for (activate_boost [boostB1] "0xT" 4 15 2 1000) "0xT" 1000
      = [boostB1, boostB2] := by
    norm_num [active_boosts_for, activate_boost, boostB1, boostB2, List.filter]
  rw [h]
  refine ⟨rfl, List.mem_cons_self _ _, rfl⟩

/-- C1 amended: activating a Boost merely appends a new active Boost row and
deactivates nothing: the set of active Boosts for the token afterwards is the
prior set of active Boosts (all untouched, `is_active` flags included) plus
the new row, so a token can have several simultaneously active Boosts. -/
theorem c1_amended (db : List Boost) (token_address : String)
    (duration_hours : ℕ) (paid_amount : ℚ) (user_id : ℤ) (now : ℕ)
    (h : 0 < duration_hours) :
    active_boosts_for (activate_boost db token_address duration_hours
        paid_amount user_id now) token_address now
      = active_boosts_for db token_address now ++
        [{ token_address := token_address, user_id := user_id
           duration_hours := duration_hours, paid_amount := paid_amount
           start_time := now, is_active := true }] := by
  unfold active_boosts_for activate_boost
  rw [List.filter_append]
  congr 1
  simp only [List.filter, beq_self_eq_true, Bool.true_and]
  rw [decide_eq_true]
  omega

/-- C1 witness: the amended theorem applied at the counterexample input. -/
theorem c1_witness :
    active_boosts_for (activate_boost [boostB1] "0xT" 4 15 2 1000) "0xT" 1000
      = active_boosts_for [boostB1] "0xT" 1000 ++ [boostB2] := by
  have h := c1_amended [boostB1] "0xT" 4 15 2 1000 (by norm_num)
  exact h

/-! Claim C2: transaction-hash deduplication. -/

/-- C2 counterexample: the same raw buy event (tx hash `0xHASH`) received
twice in immediate succession produces two dispatches, not one — the second
occurrence is not discarded as a duplicate. -/
theorem c2_counterexample :
    (handle_events [cfgT] [] (some tdT) 1 0 [evT, evT]).length = 2 := by
  have hev : handle_event [cfgT] [] (some tdT) 1 0 evT
      = [Delivery.group cfgT (mkAlert buyT cfgT)] := by
    norm_num [handle_event, process_swap_event_evT, buy_event_configs,
      check_token_boost, process_buy_event, dispatch_groups, format_buy_alert,
      buyT, cfgT, MIN_TRENDING_BUY, List.filter]
  simp [handle_events, hev]

/-- C2 amended: the pipeline performs no transaction-hash deduplication at
all: the event loop keeps no seen-hash state, so the second occurrence of an
identical raw event (same `tx_digest`) is re-processed and dispatched exactly
like the first. -/
theorem c2_amended (cfg_db : List GroupConfig) (boosts : List Boost)
    (token_data : Option TokenData) (sui_price : ℚ) (now : ℕ)
    (ev : SwapEvent) :
    handle_events cfg_db boosts token_data sui_price now [ev, ev] =
      handle_event cfg_db boosts token_data sui_price now ev ++
        handle_event cfg_db boosts token_data sui_price now ev := by
  simp [handle_events]

/-- With no group configurations for the token, `process_buy_event` sends
nothing at all: the trending branch dies on the `configs[0]` read. -/
theorem process_buy_event_nil (isb : Bool) (buy : BuyData) :
    process_buy_event [] isb buy = [] := by
  simp [process_buy_event, dispatch_groups]

/-! Claim C3: trending qualification with boost bypass. -/

/-- C3 counterexample: token `0xT` is boosted (via `boostB1`) and `buy1` has
`usd_amount = 1`, yet when no group tracks the token the buy does NOT reach
the trending channel — no message at all is sent (the `configs[0]` read at
bot.py 419 raises `IndexError`, swallowed by the outer handler), so the
claimed "if and only if" fails in the "if" direction. -/
theorem c3_counterexample :
    check_token_boost [boostB1] buy1.token_address 0 = true ∧
    buy1.amount_usd = 1 ∧
    process_buy_event [] (check_token_boost [boostB1] buy1.token_address 0) buy1
      = [] := by
  refine ⟨?_, ?_, process_buy_event_nil _ _⟩
  · norm_num [check_token_boost, boostB1, buy1, buyT]
  · norm_num [buy1, buyT]

/-- C3 amended: provided every configuration for the token has
`buy_step ≠ 0` (so no formatting failure aborts processing), a message
reaches the trending channel iff (`usd_amount ≥ 200` or the token is
boosted) AND at least one group configuration exists for the token — the
trending message is formatted from `configs[0]`, so with no configuration
the qualifying buy is silently dropped. -/
theorem c3_amended (cfgs : List GroupConfig) (boosts : List Boost) (now : ℕ)
    (buy : BuyData) (h : ∀ c ∈ cfgs, c.buy_step ≠ 0) :
    (∃ a, Delivery.trending a ∈
        process_buy_event cfgs (check_token_boost boosts buy.token_address now) buy) ↔
      ((MIN_TRENDING_BUY ≤ buy.amount_usd ∨
          check_token_boost boosts buy.token_address now = true) ∧ cfgs ≠ []) :=
  trending_mem_iff cfgs _ buy h

/-- C3 witness: with one configuration present, the boosted `usd_amount = 1`
buy does reach the trending channel. -/
theorem c3_witness :
    ∃ a, Delivery.trending a ∈
      process_buy_event [cfgT] (check_token_boost [boostB1] buy1.token_address 0) buy1 := by
  have hstep : ∀ c ∈ [cfgT], c.buy_step ≠ 0 := by
    intro c hc
    simp only [List.mem_singleton] at hc
    subst hc
    norm_num [cfgT]
  refine (c3_amended [cfgT] [boostB1] 0 buy1 hstep).mpr ⟨Or.inr ?_, by simp⟩
  norm_num [check_token_boost, boostB1, buy1, buyT]

/-! Claim C4: inactive-destination exclusion. -/

/-- C4 counterexample: a destination with `is_active = false` and
`min_buy = 1` receives the alert for a 10 USD buy: the dispatch query
(`buy_event_configs`, bot.py 388-393) does not filter on the active flag —
unlike `get_group_configs` (database.py 205-216), which `process_buy_event`
does not use and which would have excluded the row. -/
theorem c4_counterexample :
    cfgInactive.is_active = false ∧
    buy_event_configs [cfgInactive] buy10.token_address = [cfgInactive] ∧
    get_group_configs [cfgInactive] buy10.token_address = [] ∧
    process_buy_event (buy_event_configs [cfgInactive] buy10.token_address)
        false buy10
      = [Delivery.group cfgInactive (mkAlert buy10 cfgInactive)] := by
  have hq : buy_event_configs [cfgInactive] buy10.token_address = [cfgInactive] := by
    norm_num [buy_event_configs, cfgInactive, cfgT, buy10, buyT, List.filter]
  refine ⟨rfl, hq, ?_, ?_⟩
  · norm_num [get_group_configs, cfgInactive, cfgT, buy10, buyT, List.filter]
  · rw [hq]
    norm_num [process_buy_event, dispatch_groups, format_buy_alert, cfgInactive,
      cfgT, buy10, buyT, MIN_TRENDING_BUY]

/-- C4 amended: the active flag plays no role in dispatch. Provided no
formatting failure truncates the loop (`buy_step ≠ 0` throughout), a
destination configuration receives the delivery if and only if it is among
the configurations for the token and its `min_buy` threshold is met —
regardless of `is_active`. -/
theorem c4_amended (cfgs : List GroupConfig) (isb : Bool) (buy : BuyData)
    (c : GroupConfig) (a : Alert) (h : ∀ c' ∈ cfgs, c'.buy_step ≠ 0) :
    Delivery.group c a ∈ process_buy_event cfgs isb buy ↔
      (c ∈ cfgs ∧ c.min_buy ≤ buy.amount_usd ∧
        format_buy_alert buy c = .ok a) := by
  constructor
  · exact process_buy_event_group_mem cfgs isb buy c a
  · rintro ⟨hc, hm, hfa⟩
    rw [format_buy_alert_ok buy c (h c hc)] at hfa
    injection hfa with ha
    subst ha
    exact process_buy_event_group_mem_intro cfgs isb buy c h hc hm

/-- C4 witness: the amended theorem applied at the inactive destination. -/
theorem c4_witness :
    cfgInactive.is_active = false ∧
    Delivery.group cfgInactive (mkAlert buy10 cfgInactive)
      ∈ process_buy_event [cfgInactive] false buy10 := by
  have hstep : ∀ c ∈ [cfgInactive], c.buy_step ≠ 0 := by
    intro c hc
    simp only [List.mem_singleton] at hc
    subst hc
    norm_num [cfgInactive, cfgT]
  refine ⟨rfl, ?_⟩
  exact (c4_amended [cfgInactive] false buy10 cfgInactive
      (mkAlert buy10 cfgInactive) hstep).mpr
    ⟨List.mem_singleton_self _, by norm_num [cfgInactive, cfgT, buy10, buyT],
      format_buy_alert_ok buy10 cfgInactive (by norm_num [cfgInactive, cfgT])⟩

/-! Claim C5: market data cache TTL. -/

/-- C5: the cache never serves a hit. The first call for `0xT` fetches and
populates the cache; the second call one second later — squarely inside the
5-minute TTL, when the claim requires the cached entry to be returned —
returns `none` instead: the cache-hit path reads the attributes
`cached.timestamp` / `cached.data` of the stored plain dict (sui_api.py
171-173 versus 197-200), the `AttributeError` is swallowed by the
`except` handler, and `None` comes back. -/
theorem c5_code_bug :
    (get_token_data [] "0xT" (some tdT) 100).1 = some tdT ∧
    (get_token_data (get_token_data [] "0xT" (some tdT) 100).2 "0xT"
        (some tdT) 101).1 = none := by
  constructor <;> rfl

/-! Claim C6: emoji-line formatting. -/

/-- Truncation toward zero agrees with the floor on nonnegative quotients. -/
theorem truncRat_of_nonneg (q : ℚ) (h : 0 ≤ q) : truncRat q = ⌊q⌋ := by
  simp [truncRat, h]

/-- Truncation toward zero of a nonpositive quotient is nonpositive. -/
theorem truncRat_nonpos (q : ℚ) (h : q ≤ 0) : truncRat q ≤ 0 := by
  unfold truncRat
  split
  · calc ⌊q⌋ ≤ ⌊(0 : ℚ)⌋ := Int.floor_le_floor h
    _ = 0 := Int.floor_zero
  · calc ⌈q⌉ ≤ ⌈(0 : ℚ)⌉ := Int.ceil_le_ceil h
    _ = 0 := Int.ceil_zero

/-- C6 counterexample: with `buy_step = 0` the formatter does NOT produce an
empty emoji line — the `Decimal` division raises and `format_buy_alert`
fails with `BuyBotException` (bot.py 200-202), aborting the alert. -/
theorem c6_counterexample :
    format_buy_alert buy23 cfgStep0 = .error .buyBotException := by
  norm_num [format_buy_alert, cfgStep0, cfgT]

/-- C6 amended: for `buy_step > 0` the emoji count is
`min ⌊usd / step⌋ MAX_EMOJIS`, a value in `[0, 50]`; for `buy_step < 0` the
emoji line is empty (no error); but `buy_step = 0` raises `BuyBotException`
(no alert is produced) rather than yielding an empty emoji line. -/
theorem c6_amended (buy : BuyData) (cfg : GroupConfig)
    (h0 : 0 ≤ buy.amount_usd) :
    (0 < cfg.buy_step →
      format_buy_alert buy cfg = .ok (mkAlert buy cfg) ∧
      (mkAlert buy cfg).emoji_count
        = min ⌊buy.amount_usd / cfg.buy_step⌋ MAX_EMOJIS ∧
      0 ≤ (mkAlert buy cfg).emoji_count ∧
      (mkAlert buy cfg).emoji_count ≤ MAX_EMOJIS) ∧
    (cfg.buy_step < 0 →
      format_buy_alert buy cfg = .ok (mkAlert buy cfg) ∧
      (mkAlert buy cfg).emojis = "") ∧
    (cfg.buy_step = 0 →
      format_buy_alert buy cfg = .error .buyBotException) := by
  refine ⟨fun hpos => ?_, fun hneg => ?_, fun hz => ?_⟩
  · have hq : 0 ≤ buy.amount_usd / cfg.buy_step := div_nonneg h0 hpos.le
    have ht := truncRat_of_nonneg (buy.amount_usd / cfg.buy_step) hq
    refine ⟨format_buy_alert_ok buy cfg (ne_of_gt hpos), ?_, ?_, ?_⟩
    · simp [mkAlert, ht]
    · simp only [mkAlert]
      rw [ht]
      exact le_min (Int.floor_nonneg.mpr hq) (by norm_num [MAX_EMOJIS])
    · simp only [mkAlert]
      exact min_le_right _ _
  · have hq : buy.amount_usd / cfg.buy_step ≤ 0 :=
      div_nonpos_iff.mpr (Or.inl ⟨h0, hneg.le⟩)
    have hle : min (truncRat (buy.amount_usd / cfg.buy_step)) MAX_EMOJIS ≤ 0 :=
      le_trans (min_le_left _ _) (truncRat_nonpos _ hq)
    refine ⟨format_buy_alert_ok buy cfg (ne_of_lt hneg), ?_⟩
    simp only [mkAlert]
    rw [if_neg (not_lt.mpr hle)]
  · simp [format_buy_alert, hz]

/-- C6 witness: `buy_step = 5`, `usd_amount = 23` yields 4 emojis;
`buy_step = -5` yields an empty emoji line. -/
theorem c6_witness :
    format_buy_alert buy23 cfgT = Except.ok (mkAlert buy23 cfgT) ∧
    (mkAlert buy23 cfgT).emoji_count = 4 ∧
    format_buy_alert buy23 cfgStepNeg = Except.ok (mkAlert buy23 cfgStepNeg) ∧
    (mkAlert buy23 cfgStepNeg).emojis = "" := by
  have h0 : (0 : ℚ) ≤ buy23.amount_usd := by norm_num [buy23, buyT]
  have h1 := (c6_amended buy23 cfgT h0).1 (by norm_num [cfgT])
  have h2 := (c6_amended buy23 cfgStepNeg h0).2.1 (by norm_num [cfgStepNeg, cfgT])
  refine ⟨h1.1, ?_, h2.1, h2.2⟩
  rw [h1.2.1]
  norm_num [buy23, buyT, cfgT, MAX_EMOJIS]

/-! Claim C7: SUI-input discard. -/

/-- C7 counterexample: the raw event `evT` has `token_in = SUI_ASSET`, and
far from being discarded it is the one shape of event that IS normalized
into a `BuyData` — it is the SUI → token direction that constitutes a buy. -/
theorem c7_counterexample :
    evT.amount_in.token = SUI_ASSET ∧
    process_swap_event evT (some tdT) 1 0 = some buyT :=
  ⟨rfl, process_swap_event_evT⟩

/-- C7 amended: the discard test is the opposite one — every raw event whose
INPUT asset is not SUI is discarded as a non-buy (sui_api.py 128-130);
events with `token_in = SUI_ASSET` proceed toward emission. -/
theorem c7_amended (ev : SwapEvent) (td : Option TokenData) (p : ℚ) (now : ℕ)
    (h : ev.amount_in.token ≠ SUI_ASSET) :
    process_swap_event ev td p now = none := by
  simp [process_swap_event, h]

/-- C7 witness: the token → SUI (wrong direction) swap is discarded. -/
theorem c7_witness : process_swap_event evWrongDir (some tdT) 1 0 = none :=
  c7_amended evWrongDir (some tdT) 1 0 (by decide)

/-! Claim C8: normalizer totality and degraded emission. -/

/-- C8 counterexample: `evBadIn` is buy-like (`token_in = SUI_ASSET`, token
data available) but its input amount field does not parse; the claim says the
field degrades to 0 and a `Buy` is still emitted, yet the code catches the
parse exception and emits nothing (`None`). -/
theorem c8_counterexample :
    evBadIn.amount_in.token = SUI_ASSET ∧
    evBadIn.amount_in.amount = none ∧
    process_swap_event evBadIn (some tdT) 1 0 = none := by
  refine ⟨rfl, rfl, ?_⟩
  simp [process_swap_event, evBadIn, SUI_ASSET]

/-- C8 amended: normalization never raises — every exception is caught and
turned into a discard (`none`) — but a buy-like event with an unparseable
amount field is discarded entirely rather than emitted with the amount
defaulted to 0; the wrong-direction discard path likewise produces no
record. (There is no duplicate discard path at all: see the C2 theorems.) -/
theorem c8_amended (ev : SwapEvent) (td : Option TokenData) (p : ℚ) (now : ℕ) :
    (ev.amount_in.amount = none ∨ ev.amount_out.amount = none →
      process_swap_event ev td p now = none) ∧
    (ev.amount_in.token ≠ SUI_ASSET →
      process_swap_event ev td p now = none) := by
  constructor
  · intro h
    by_cases htok : ev.amount_in.token ≠ SUI_ASSET
    · simp [process_swap_event, htok]
    · push_neg at htok
      cases td with
      | none => simp [process_swap_event, htok]
      | some td' =>
        cases hin : ev.amount_in.amount with
        | none => simp [process_swap_event, htok, hin]
        | some ain =>
          cases hout : ev.amount_out.amount with
          | none => simp [process_swap_event, htok, hin, hout]
          | some aout =>
            exfalso
            rcases h with h | h
            · rw [hin] at h
              cases h
            · rw [hout] at h
              cases h
  · intro h
    simp [process_swap_event, h]

/-- C8 witness: an unparseable output amount is discarded, and so is a
wrong-direction swap. -/
theorem c8_witness :
    process_swap_event evBadOut (some tdT) 1 0 = none ∧
    process_swap_event evWrongDir (some tdT) 2 0 = none := by
  constructor
  · exact (c8_amended evBadOut (some tdT) 1 0).1 (Or.inr rfl)
  · exact (c8_amended evWrongDir (some tdT) 2 0).2 (by decide)

/-! Claim C9: silent zero-price degradation. -/

/-- C9: when the SUI price endpoint fails or answers non-200, `get_sui_price`
returns 0 instead of raising; every buy normalized against that price is
constructed with `amount_usd = 0`, and so no destination with a positive
`min_buy` threshold receives it — the pipeline silently suppresses the buys,
surfacing no error. -/
theorem c9_confirmed (ev : SwapEvent) (td : Option TokenData) (now : ℕ)
    (buy : BuyData)
    (h : process_swap_event ev td (get_sui_price none) now = some buy) :
    get_sui_price none = 0 ∧ buy.amount_usd = 0 ∧
    ∀ (cfgs : List GroupConfig) (isb : Bool) (c : GroupConfig) (a : Alert),
      0 < c.min_buy → Delivery.group c a ∉ process_buy_event cfgs isb buy := by
  have husd : buy.amount_usd = 0 := by
    by_cases htok : ev.amount_in.token ≠ SUI_ASSET
    · simp [process_swap_event, htok] at h
    · push_neg at htok
      cases td with
      | none => simp [process_swap_event, htok] at h
      | some td' =>
        cases hin : ev.amount_in.amount with
        | none => simp [process_swap_event, htok, hin] at h
        | some ain =>
          cases hout : ev.amount_out.amount with
          | none => simp [process_swap_event, htok, hin, hout] at h
          | some aout =>
            simp only [process_swap_event, htok, hin, hout, ne_eq,
              not_true_eq_false, if_false, Option.some.injEq] at h
            subst h
            simp [get_sui_price]
  refine ⟨rfl, husd, ?_⟩
  intro cfgs isb c a hmin hd
  obtain ⟨-, hle, -⟩ := process_buy_event_group_mem cfgs isb buy c a hd
  rw [husd] at hle
  exact absurd (lt_of_lt_of_le hmin hle) (lt_irrefl 0)

/-- C9 witness: the concrete event `evT` normalized during a price outage
yields `buyT0` with `amount_usd = 0`, which the destination `cfgT`
(`min_buy = 1`) never receives. -/
theorem c9_witness :
    buyT0.amount_usd = 0 ∧
    ∀ a, Delivery.group cfgT a ∉ process_buy_event [cfgT] false buyT0 := by
  have hps : process_swap_event evT (some tdT) (get_sui_price none) 0
      = some buyT0 := by
    norm_num [process_swap_event, evT, tdT, buyT0, buyT, SUI_ASSET, get_sui_price]
    decide
  have h := c9_confirmed evT (some tdT) 0 buyT0 hps
  exact ⟨h.2.1, fun a => h.2.2 [cfgT] false cfgT a (by norm_num [cfgT])⟩

/-! Claim C10: exact-amount payment verification. -/

/-- C10: `verify_payment` answers `true` iff the response was a 200 whose
transaction list contains some transaction with `kind = "Pay"`,
`status = "success"` and raw amount scaled by `10^9` EXACTLY equal to the
expected amount — an overpayment or underpayment by any margin matches no
transaction by itself and is never accepted as confirmation. -/
theorem c10_confirmed (response : Option (List PayTx)) (amount : ℚ) :
    verify_payment response amount = true ↔
      ∃ txs, response = some txs ∧ ∃ tx ∈ txs,
        tx.kind = "Pay" ∧ tx.status = "success" ∧
          (tx.amount : ℚ) / 10 ^ 9 = amount := by
  cases response with
  | none => simp [verify_payment]
  | some txs =>
    simp only [verify_payment, List.any_eq_true, Bool.and_eq_true, beq_iff_eq,
      decide_eq_true_eq, Option.some.injEq]
    constructor
    · rintro ⟨tx, htx, ⟨hk, hs⟩, ha⟩
      exact ⟨txs, rfl, tx, htx, hk, hs, ha⟩
    · rintro ⟨txs', heq, tx, htx, hk, hs, ha⟩
      subst heq
      exact ⟨tx, htx, ⟨hk, hs⟩, ha⟩
